import Mathlib

/-!
Verification of `PepLibGen/Analysis/chem_analysis.py`.

The module computes physicochemical descriptors of a molecule given as a
SMILES string by delegating to an external cheminformatics library (rdkit):
`Chem.MolFromSmiles` parses a SMILES string into a molecule (returning the
Python value `None` on unparseable input, or raising an internal exception),
and `Crippen.MolLogP`, `Lipinski.NumHDonors`, `Lipinski.NumHAcceptors`,
`Descriptors.MolWt` compute descriptors of a parsed molecule.

We embed the module shallowly: the external library is an abstract
collaborator (a structure of functions over an abstract molecule type), and
the three Python functions `log_partition_coefficient`, `lipinski_trial`
and `lipinski_pass` become Lean functions returning `Except` values, where
`Except.error` models a raised Python exception propagating to the caller.
Descriptor values are modelled as rationals (counts as naturals); Python's
string interpolation `"%s" % v` is modelled by `toString`.
-/

/-- The kinds of Python exception that can propagate out of the module.
`smilesError msg` is the module's own `SmilesError(msg)`;
`exception msg` is a bare `Exception(msg)` raised by `lipinski_trial`;
`libraryError site` is an exception raised inside the external rdkit
library itself (for example by `Crippen.MolLogP` when handed `None`),
which the module does not create and does not catch. -/
inductive PyError : Type where
  | smilesError (msg : String)
  | exception (msg : String)
  | libraryError (site : String)
deriving DecidableEq, Repr

/-- A coarse classification of a `PyError` by its Python exception class. -/
inductive ErrClass : Type where
  | smiles
  | generic
  | library
deriving DecidableEq, Repr

/-- The exception class of an error. -/
def PyError.errClass : PyError → ErrClass
  | .smilesError _ => .smiles
  | .exception _ => .generic
  | .libraryError _ => .library

/-- Boolean test for whether two errors have the same exception class. -/
def PyError.sameClass (e₁ e₂ : PyError) : Bool :=
  e₁.errClass = e₂.errClass

/-- Boolean test for whether an error is the module's `SmilesError`. -/
def PyError.isSmilesError : PyError → Bool
  | .smilesError _ => true
  | _ => false

/-- Outcome of a call to the collaborator's `Chem.MolFromSmiles`: the call
either raises an internal exception `e`, or returns normally with either a
molecule or the null value `None`. -/
inductive ParseOutcome (Mol : Type) : Type where
  | raises (e : PyError)
  | ret (mol : Option Mol)

/-- The external rdkit collaborator: a SMILES parser together with the four
descriptor functions used by the module, over an abstract molecule type. -/
structure Rdkit (Mol : Type) where
  MolFromSmiles : String → ParseOutcome Mol
  MolLogP : Mol → ℚ
  NumHDonors : Mol → ℕ
  NumHAcceptors : Mol → ℕ
  MolWt : Mol → ℚ

/-- The call `Crippen.MolLogP(mol)` where `mol` is the (possibly `None`)
result of parsing. Modelled from the spec: the descriptor functions are
defined on molecules only, and handing the parser's null result to the
library raises an error inside the library (spec §4.1 and §9, which note
that the original code misses the null-result case so that the null value
flows into the descriptor call). -/
def CrippenMolLogP {Mol : Type} (rd : Rdkit Mol) : Option Mol → Except PyError ℚ
  | none => .error (.libraryError ("MolLogP"))
  | some mol => .ok (rd.MolLogP mol)

/-- Embedding of `log_partition_coefficient(smiles)`: parse inside a
`try`/`except` that turns any exception raised by the parse call itself into
`SmilesError("%s returns a None molecule" % smiles)`; then return
`Crippen.MolLogP(mol)` on the parse result (outside the `try`). -/
def log_partition_coefficient {Mol : Type} (rd : Rdkit Mol) (smiles : String) :
    Except PyError ℚ :=
  match rd.MolFromSmiles smiles with
  | .raises _e => .error (.smilesError (smiles ++ " returns a None molecule"))
  | .ret mol => CrippenMolLogP rd mol

/-- The body of `lipinski_trial` after a successful parse (source lines
53-80): compute the four descriptors of the molecule, then apply the four
threshold rules in the fixed order donors, acceptors, weight, logP, each
rule appending one message to `passed` or to `failed`. Factored out of
`lipinski_trial` so the instrumented variant below can share it. -/
def lipinski_rules {Mol : Type} (rd : Rdkit Mol) (mol : Mol) :
    List String × List String :=
  let num_hdonors := rd.NumHDonors mol
    let num_hacceptors := rd.NumHAcceptors mol
    let mol_weight := rd.MolWt mol
    let mol_logp := rd.MolLogP mol
    let passed : List String := []
    let failed : List String := []
    let (passed, failed) :=
      if num_hdonors > 5 then
        (passed, failed ++ [("Over 5 H-bond donors, found " ++ toString num_hdonors)])
      else
        (passed ++ [("Found " ++ toString num_hdonors ++ " H-bond donors")], failed)
    let (passed, failed) :=
      if num_hacceptors > 10 then
        (passed, failed ++ [("Over 10 H-bond acceptors, found " ++ toString num_hacceptors)])
      else
        (passed ++ [("Found " ++ toString num_hacceptors ++ " H-bond acceptors")], failed)
    let (passed, failed) :=
      if mol_weight ≥ 500 then
        (passed, failed ++ [("Molecular weight over 500, calculated " ++ toString mol_weight)])
      else
        (passed ++ [("Molecular weight: " ++ toString mol_weight)], failed)
    let (passed, failed) :=
      if mol_logp ≥ 5 then
        (passed, failed ++ [("Log partition coefficient over 5, calculated " ++ toString mol_logp)])
      else
        (passed ++ [("Log partition coefficient: " ++ toString mol_logp)], failed)
    (passed, failed)

/-- Embedding of `lipinski_trial(smiles)`: parse (no `try`, so an exception
raised inside the parse call propagates unchanged); raise a bare
`Exception("%s is not a valid SMILES string" % smiles)` on a `None` result;
otherwise evaluate the four threshold rules (`lipinski_rules`) and return
the `(passed, failed)` message lists. -/
def lipinski_trial {Mol : Type} (rd : Rdkit Mol) (smiles : String) :
    Except PyError (List String × List String) :=
  match rd.MolFromSmiles smiles with
  | .raises e => .error e
  | .ret none => .error (.exception (smiles ++ " is not a valid SMILES string"))
  | .ret (some mol) => .ok (lipinski_rules rd mol)

/-- Embedding of `lipinski_pass(smiles)`: call `lipinski_trial` (any
exception it raises propagates unchanged), then return `False` when the
`failed` list is non-empty and `True` otherwise. -/
def lipinski_pass {Mol : Type} (rd : Rdkit Mol) (smiles : String) :
    Except PyError Bool :=
  match lipinski_trial rd smiles with
  | .error e => .error e
  | .ok (_passed, failed) => if failed.isEmpty then .ok true else .ok false

/-! ### Instrumented variants

To state the exactly-one-parse-per-call invariant we replay each operation
with the collaborator's parse routed through a wrapper that counts its
invocations; the control flow is otherwise identical to the definitions
above. -/

/-- `Chem.MolFromSmiles` routed through an invocation counter. -/
def MolFromSmiles_counted {Mol : Type} (rd : Rdkit Mol) (smiles : String)
    (calls : ℕ) : ParseOutcome Mol × ℕ :=
  (rd.MolFromSmiles smiles, calls + 1)

/-- `log_partition_coefficient` with the parse-invocation counter. -/
def log_partition_coefficient_counted {Mol : Type} (rd : Rdkit Mol)
    (smiles : String) : Except PyError ℚ × ℕ :=
  let pc := MolFromSmiles_counted rd smiles 0
  match pc.1 with
  | .raises _e => (.error (.smilesError (smiles ++ " returns a None molecule")), pc.2)
  | .ret mol => (CrippenMolLogP rd mol, pc.2)

/-- `lipinski_trial` with the parse-invocation counter. -/
def lipinski_trial_counted {Mol : Type} (rd : Rdkit Mol) (smiles : String) :
    Except PyError (List String × List String) × ℕ :=
  let pc := MolFromSmiles_counted rd smiles 0
  match pc.1 with
  | .raises e => (.error e, pc.2)
  | .ret none => (.error (.exception (smiles ++ " is not a valid SMILES string")), pc.2)
  | .ret (some mol) => (.ok (lipinski_rules rd mol), pc.2)

/-- `lipinski_pass` with the parse-invocation counter: it performs no parse
of its own, so its count is that of the `lipinski_trial` call it makes. -/
def lipinski_pass_counted {Mol : Type} (rd : Rdkit Mol) (smiles : String) :
    Except PyError Bool × ℕ :=
  let tc := lipinski_trial_counted rd smiles
  match tc.1 with
  | .error e => (.error e, tc.2)
  | .ok (_passed, failed) =>
    (if failed.isEmpty then .ok true else .ok false, tc.2)

/-! ### Concrete collaborators used by witnesses and counterexamples -/

/-- A collaborator whose parse always returns the null molecule (the way
rdkit reports an unparseable SMILES string without raising). -/
def rdNone : Rdkit Unit :=
  ⟨fun _ => .ret none, fun _ => 0, fun _ => 0, fun _ => 0, fun _ => 0⟩

/-- A collaborator whose parse always raises internally. -/
def rdRaises : Rdkit Unit :=
  ⟨fun _ => .raises (.libraryError ("MolFromSmiles")), fun _ => 0, fun _ => 0,
   fun _ => 0, fun _ => 0⟩

/-- A collaborator for which every SMILES string parses, with descriptor
values passing all four Lipinski rules (1 donor, 2 acceptors, weight 100,
logP 2). -/
def rdGood : Rdkit Unit :=
  ⟨fun _ => .ret (some ()), fun _ => 2, fun _ => 1, fun _ => 2, fun _ => 100⟩

/-- A collaborator producing exact boundary descriptor values: 5 donors,
10 acceptors, weight 500, logP 5. -/
def rdBoundary : Rdkit Unit :=
  ⟨fun _ => .ret (some ()), fun _ => 5, fun _ => 5, fun _ => 10, fun _ => 500⟩

/-- A collaborator over `Bool` molecules: distinct SMILES strings parse to
distinct molecules, but all descriptor functions are constant. -/
def rdPair : Rdkit Bool :=
  ⟨fun s => .ret (some (s == "a")), fun _ => 2, fun _ => 1, fun _ => 2, fun _ => 100⟩

/-! ### Helper lemmas -/

/-- `lipinski_rules` in normal form: each list is the in-order concatenation
of the four rules' contributions. -/
theorem lipinski_rules_eq {Mol : Type} (rd : Rdkit Mol) (mol : Mol) :
    lipinski_rules rd mol =
      ((if rd.NumHDonors mol > 5 then [] else
          [("Found " ++ toString (rd.NumHDonors mol) ++ " H-bond donors")]) ++
       (if rd.NumHAcceptors mol > 10 then [] else
          [("Found " ++ toString (rd.NumHAcceptors mol) ++ " H-bond acceptors")]) ++
       (if rd.MolWt mol ≥ 500 then [] else
          [("Molecular weight: " ++ toString (rd.MolWt mol))]) ++
       (if rd.MolLogP mol ≥ 5 then [] else
          [("Log partition coefficient: " ++ toString (rd.MolLogP mol))]),
       (if rd.NumHDonors mol > 5 then
          [("Over 5 H-bond donors, found " ++ toString (rd.NumHDonors mol))] else []) ++
       (if rd.NumHAcceptors mol > 10 then
          [("Over 10 H-bond acceptors, found " ++ toString (rd.NumHAcceptors mol))] else []) ++
       (if rd.MolWt mol ≥ 500 then
          [("Molecular weight over 500, calculated " ++ toString (rd.MolWt mol))] else []) ++
       (if rd.MolLogP mol ≥ 5 then
          [("Log partition coefficient over 5, calculated " ++ toString (rd.MolLogP mol))] else [])) := by
  unfold lipinski_rules
  by_cases h1 : rd.NumHDonors mol > 5 <;> by_cases h2 : rd.NumHAcceptors mol > 10 <;>
    by_cases h3 : rd.MolWt mol ≥ 500 <;> by_cases h4 : rd.MolLogP mol ≥ 5 <;>
    simp [h1, h2, h3, h4]

/-- Two string concatenations differ when their left parts differ within
the first `k` characters of both. -/
theorem ne_of_take_ne (a b x y : String) (k : ℕ)
    (h : List.take k a.data ≠ List.take k b.data)
    (ha : k ≤ a.data.length) (hb : k ≤ b.data.length) :
    a ++ x ≠ b ++ y := by
  intro he
  apply h
  have hd : a.data ++ x.data = b.data ++ y.data := by
    have h2 := congrArg String.data he
    simpa [String.data_append] using h2
  calc List.take k a.data
      = List.take k (a.data ++ x.data) := by
        rw [List.take_append_eq_append_take, Nat.sub_eq_zero_of_le ha,
          List.take_zero, List.append_nil]
    _ = List.take k (b.data ++ y.data) := by rw [hd]
    _ = List.take k b.data := by
        rw [List.take_append_eq_append_take, Nat.sub_eq_zero_of_le hb,
          List.take_zero, List.append_nil]

/-- The donor and acceptor failure messages can never coincide. -/
theorem msg_ne_da (x y : String) :
    ("Over 5 H-bond donors, found " ++ x) ≠ ("Over 10 H-bond acceptors, found " ++ y) :=
  ne_of_take_ne _ _ _ _ 6 (by decide) (by decide) (by decide)

/-- The acceptor and donor failure messages can never coincide. -/
theorem msg_ne_ad (x y : String) :
    ("Over 10 H-bond acceptors, found " ++ x) ≠ ("Over 5 H-bond donors, found " ++ y) :=
  ne_of_take_ne _ _ _ _ 6 (by decide) (by decide) (by decide)

/-- The donor and weight failure messages can never coincide. -/
theorem msg_ne_dw (x y : String) :
    ("Over 5 H-bond donors, found " ++ x) ≠ ("Molecular weight over 500, calculated " ++ y) :=
  ne_of_take_ne _ _ _ _ 1 (by decide) (by decide) (by decide)

/-- The weight and donor failure messages can never coincide. -/
theorem msg_ne_wd (x y : String) :
    ("Molecular weight over 500, calculated " ++ x) ≠ ("Over 5 H-bond donors, found " ++ y) :=
  ne_of_take_ne _ _ _ _ 1 (by decide) (by decide) (by decide)

/-- The donor and logP failure messages can never coincide. -/
theorem msg_ne_dl (x y : String) :
    ("Over 5 H-bond donors, found " ++ x) ≠ ("Log partition coefficient over 5, calculated " ++ y) :=
  ne_of_take_ne _ _ _ _ 1 (by decide) (by decide) (by decide)

/-- The logP and donor failure messages can never coincide. -/
theorem msg_ne_ld (x y : String) :
    ("Log partition coefficient over 5, calculated " ++ x) ≠ ("Over 5 H-bond donors, found " ++ y) :=
  ne_of_take_ne _ _ _ _ 1 (by decide) (by decide) (by decide)

/-- The acceptor and weight failure messages can never coincide. -/
theorem msg_ne_aw (x y : String) :
    ("Over 10 H-bond acceptors, found " ++ x) ≠ ("Molecular weight over 500, calculated " ++ y) :=
  ne_of_take_ne _ _ _ _ 1 (by decide) (by decide) (by decide)

/-- The weight and acceptor failure messages can never coincide. -/
theorem msg_ne_wa (x y : String) :
    ("Molecular weight over 500, calculated " ++ x) ≠ ("Over 10 H-bond acceptors, found " ++ y) :=
  ne_of_take_ne _ _ _ _ 1 (by decide) (by decide) (by decide)

/-- The acceptor and logP failure messages can never coincide. -/
theorem msg_ne_al (x y : String) :
    ("Over 10 H-bond acceptors, found " ++ x) ≠ ("Log partition coefficient over 5, calculated " ++ y) :=
  ne_of_take_ne _ _ _ _ 1 (by decide) (by decide) (by decide)

/-- The logP and acceptor failure messages can never coincide. -/
theorem msg_ne_la (x y : String) :
    ("Log partition coefficient over 5, calculated " ++ x) ≠ ("Over 10 H-bond acceptors, found " ++ y) :=
  ne_of_take_ne _ _ _ _ 1 (by decide) (by decide) (by decide)

/-- The weight and logP failure messages can never coincide. -/
theorem msg_ne_wl (x y : String) :
    ("Molecular weight over 500, calculated " ++ x) ≠ ("Log partition coefficient over 5, calculated " ++ y) :=
  ne_of_take_ne _ _ _ _ 1 (by decide) (by decide) (by decide)

/-- The logP and weight failure messages can never coincide. -/
theorem msg_ne_lw (x y : String) :
    ("Log partition coefficient over 5, calculated " ++ x) ≠ ("Molecular weight over 500, calculated " ++ y) :=
  ne_of_take_ne _ _ _ _ 1 (by decide) (by decide) (by decide)

/-- C3: for every valid SMILES string the four threshold rules have exactly
these boundary semantics: the donor rule fails iff the donor count exceeds 5
(so exactly 5 donors passes), the acceptor rule fails iff the acceptor count
exceeds 10, the weight rule fails iff the molecular weight is at least 500
(so exactly 500 fails), and the logP rule fails iff the logP is at least 5
(so exactly 5 fails). -/
theorem lipinski_rule_boundaries {Mol : Type} (rd : Rdkit Mol) (s : String)
    (m : Mol) (h : rd.MolFromSmiles s = .ret (some m)) :
    ∃ p f, lipinski_trial rd s = .ok (p, f) ∧
      ((("Over 5 H-bond donors, found " ++ toString (rd.NumHDonors m)) ∈ f) ↔
        rd.NumHDonors m > 5) ∧
      ((("Over 10 H-bond acceptors, found " ++ toString (rd.NumHAcceptors m)) ∈ f) ↔
        rd.NumHAcceptors m > 10) ∧
      ((("Molecular weight over 500, calculated " ++ toString (rd.MolWt m)) ∈ f) ↔
        rd.MolWt m ≥ 500) ∧
      ((("Log partition coefficient over 5, calculated " ++ toString (rd.MolLogP m)) ∈ f) ↔
        rd.MolLogP m ≥ 5) ∧
      (rd.NumHDonors m = 5 →
        ("Found " ++ toString (rd.NumHDonors m) ++ " H-bond donors") ∈ p) ∧
      (rd.MolWt m = 500 →
        ("Molecular weight over 500, calculated " ++ toString (rd.MolWt m)) ∈ f) ∧
      (rd.MolLogP m = 5 →
        ("Log partition coefficient over 5, calculated " ++ toString (rd.MolLogP m)) ∈ f) := by
  have ht : lipinski_trial rd s = .ok (lipinski_rules rd m) := by
    simp [lipinski_trial, h]
  rw [lipinski_rules_eq] at ht
  refine ⟨_, _, ht, ?_, ?_, ?_, ?_, ?_, ?_, ?_⟩
  · by_cases h1 : rd.NumHDonors m > 5 <;> by_cases h2 : rd.NumHAcceptors m > 10 <;>
      by_cases h3 : rd.MolWt m ≥ 500 <;> by_cases h4 : rd.MolLogP m ≥ 5 <;>
      simp [h1, h2, h3, h4, msg_ne_da, msg_ne_dw, msg_ne_dl]
  · by_cases h1 : rd.NumHDonors m > 5 <;> by_cases h2 : rd.NumHAcceptors m > 10 <;>
      by_cases h3 : rd.MolWt m ≥ 500 <;> by_cases h4 : rd.MolLogP m ≥ 5 <;>
      simp [h1, h2, h3, h4, msg_ne_ad, msg_ne_aw, msg_ne_al]
  · by_cases h1 : rd.NumHDonors m > 5 <;> by_cases h2 : rd.NumHAcceptors m > 10 <;>
      by_cases h3 : rd.MolWt m ≥ 500 <;> by_cases h4 : rd.MolLogP m ≥ 5 <;>
      simp [h1, h2, h3, h4, msg_ne_wd, msg_ne_wa, msg_ne_wl]
  · by_cases h1 : rd.NumHDonors m > 5 <;> by_cases h2 : rd.NumHAcceptors m > 10 <;>
      by_cases h3 : rd.MolWt m ≥ 500 <;> by_cases h4 : rd.MolLogP m ≥ 5 <;>
      simp [h1, h2, h3, h4, msg_ne_ld, msg_ne_la, msg_ne_lw]
  · intro hd
    have h1 : ¬ rd.NumHDonors m > 5 := by omega
    simp [h1]
  · intro hw
    have h3 : rd.MolWt m ≥ 500 := le_of_eq hw.symm
    simp [h3]
  · intro hl
    have h4 : rd.MolLogP m ≥ 5 := le_of_eq hl.symm
    simp [h4]

/-- C3 witness: at the boundary collaborator (5 donors, 10 acceptors, weight
500, logP 5) the parse hypothesis holds, the donor message is a pass, and the
weight and logP messages are failures. -/
theorem lipinski_rule_boundaries_witness :
    rdBoundary.MolFromSmiles ("C") = ParseOutcome.ret (some ()) ∧
    (∃ p f, lipinski_trial rdBoundary ("C") = .ok (p, f) ∧
      ("Found " ++ toString (rdBoundary.NumHDonors ()) ++ " H-bond donors") ∈ p ∧
      ("Molecular weight over 500, calculated " ++ toString (rdBoundary.MolWt ())) ∈ f ∧
      ("Log partition coefficient over 5, calculated " ++ toString (rdBoundary.MolLogP ())) ∈ f) := by
  refine ⟨rfl, ?_⟩
  obtain ⟨p, f, hok, _i1, _i2, _i3, _i4, hdon, hwt, hlp⟩ :=
    lipinski_rule_boundaries rdBoundary ("C") () rfl
  exact ⟨p, f, hok, hdon rfl, hwt rfl, hlp rfl⟩

/-- C4: for every valid SMILES string, `lipinski_trial` returns exactly 4
outcomes in total across its `passed` and `failed` lists — one per rule, in
the fixed order donors, acceptors, weight, logP (each list is the
order-preserving projection of that 4-outcome sequence) — and each outcome's
message includes the measured descriptor value for its rule. -/
theorem lipinski_trial_four_outcomes {Mol : Type} (rd : Rdkit Mol) (s : String)
    (m : Mol) (h : rd.MolFromSmiles s = .ret (some m)) :
    ∃ o₁ o₂ o₃ o₄ : Bool × String, ∃ p f,
      lipinski_trial rd s = .ok (p, f) ∧
      p = (List.filter (fun o => o.1) [o₁, o₂, o₃, o₄]).map (fun o => o.2) ∧
      f = (List.filter (fun o => !o.1) [o₁, o₂, o₃, o₄]).map (fun o => o.2) ∧
      p.length + f.length = 4 ∧
      (∃ u v, o₁.2 = u ++ toString (rd.NumHDonors m) ++ v) ∧
      (∃ u v, o₂.2 = u ++ toString (rd.NumHAcceptors m) ++ v) ∧
      (∃ u v, o₃.2 = u ++ toString (rd.MolWt m) ++ v) ∧
      (∃ u v, o₄.2 = u ++ toString (rd.MolLogP m) ++ v) := by
  have ht : lipinski_trial rd s = .ok (lipinski_rules rd m) := by
    simp [lipinski_trial, h]
  rw [lipinski_rules_eq] at ht
  refine ⟨(if rd.NumHDonors m > 5 then
      (false, ("Over 5 H-bond donors, found " ++ toString (rd.NumHDonors m)))
    else (true, ("Found " ++ toString (rd.NumHDonors m) ++ " H-bond donors"))),
    (if rd.NumHAcceptors m > 10 then
      (false, ("Over 10 H-bond acceptors, found " ++ toString (rd.NumHAcceptors m)))
    else (true, ("Found " ++ toString (rd.NumHAcceptors m) ++ " H-bond acceptors"))),
    (if rd.MolWt m ≥ 500 then
      (false, ("Molecular weight over 500, calculated " ++ toString (rd.MolWt m)))
    else (true, ("Molecular weight: " ++ toString (rd.MolWt m)))),
    (if rd.MolLogP m ≥ 5 then
      (false, ("Log partition coefficient over 5, calculated " ++ toString (rd.MolLogP m)))
    else (true, ("Log partition coefficient: " ++ toString (rd.MolLogP m)))),
    _, _, ht, ?_, ?_, ?_, ?_, ?_, ?_, ?_⟩
  · by_cases h1 : rd.NumHDonors m > 5 <;> by_cases h2 : rd.NumHAcceptors m > 10 <;>
      by_cases h3 : rd.MolWt m ≥ 500 <;> by_cases h4 : rd.MolLogP m ≥ 5 <;>
      simp [h1, h2, h3, h4]
  · by_cases h1 : rd.NumHDonors m > 5 <;> by_cases h2 : rd.NumHAcceptors m > 10 <;>
      by_cases h3 : rd.MolWt m ≥ 500 <;> by_cases h4 : rd.MolLogP m ≥ 5 <;>
      simp [h1, h2, h3, h4]
  · by_cases h1 : rd.NumHDonors m > 5 <;> by_cases h2 : rd.NumHAcceptors m > 10 <;>
      by_cases h3 : rd.MolWt m ≥ 500 <;> by_cases h4 : rd.MolLogP m ≥ 5 <;>
      simp [h1, h2, h3, h4]
  · by_cases h1 : rd.NumHDonors m > 5
    · simp only [if_pos h1]
      exact ⟨("Over 5 H-bond donors, found "), (""), (String.append_empty _).symm⟩
    · simp only [if_neg h1]
      exact ⟨("Found "), (" H-bond donors"), rfl⟩
  · by_cases h2 : rd.NumHAcceptors m > 10
    · simp only [if_pos h2]
      exact ⟨("Over 10 H-bond acceptors, found "), (""), (String.append_empty _).symm⟩
    · simp only [if_neg h2]
      exact ⟨("Found "), (" H-bond acceptors"), rfl⟩
  · by_cases h3 : rd.MolWt m ≥ 500
    · simp only [if_pos h3]
      exact ⟨("Molecular weight over 500, calculated "), (""), (String.append_empty _).symm⟩
    · simp only [if_neg h3]
      exact ⟨("Molecular weight: "), (""), (String.append_empty _).symm⟩
  · by_cases h4 : rd.MolLogP m ≥ 5
    · simp only [if_pos h4]
      exact ⟨("Log partition coefficient over 5, calculated "), (""), (String.append_empty _).symm⟩
    · simp only [if_neg h4]
      exact ⟨("Log partition coefficient: "), (""), (String.append_empty _).symm⟩

/-- C4 witness: at a collaborator that parses everything, `lipinski_trial`
returns four outcomes in total. -/
theorem lipinski_trial_four_outcomes_witness :
    rdGood.MolFromSmiles ("CCO") = ParseOutcome.ret (some ()) ∧
    (∃ p f, lipinski_trial rdGood ("CCO") = .ok (p, f) ∧ p.length + f.length = 4) := by
  refine ⟨rfl, ?_⟩
  obtain ⟨_o₁, _o₂, _o₃, _o₄, p, f, hok, _hp, _hf, hlen, _⟩ :=
    lipinski_trial_four_outcomes rdGood ("CCO") () rfl
  exact ⟨p, f, hok, hlen⟩

/-- C5: `lipinski_pass` is exactly the emptiness test of the `failed` list
produced by the full `lipinski_trial` evaluation (no short-circuiting: it is
`Except.map` over the complete trial result), and on a successful trial it
returns `true` iff the `failed` list is empty. -/
theorem lipinski_pass_iff_no_failures {Mol : Type} (rd : Rdkit Mol) (s : String) :
    lipinski_pass rd s = Except.map (fun r => r.2.isEmpty) (lipinski_trial rd s) ∧
    ∀ p f, lipinski_trial rd s = .ok (p, f) →
      (lipinski_pass rd s = .ok true ↔ f = []) := by
  constructor
  · unfold lipinski_pass Except.map
    rcases lipinski_trial rd s with e | ⟨p, f⟩
    · rfl
    · by_cases hf : f.isEmpty <;> simp [hf]
  · intro p f hok
    unfold lipinski_pass
    rw [hok]
    rcases f with _ | ⟨a, f⟩ <;> simp

/-- C5 witness: for the all-pass collaborator, `lipinski_pass` returns
`true`. -/
theorem lipinski_pass_iff_no_failures_witness :
    lipinski_pass rdGood ("CCO") = .ok true := by
  have h := (lipinski_pass_iff_no_failures rdGood ("CCO")).2
    (lipinski_rules rdGood ()).1 [] (by rfl)
  exact h.mpr rfl

/-- C6: for every valid SMILES string, `log_partition_coefficient` returns
(as a plain finite rational) exactly the partition coefficient the
collaborator's `Crippen.MolLogP` reports for the parsed molecule. -/
theorem log_partition_coefficient_valid {Mol : Type} (rd : Rdkit Mol)
    (s : String) (m : Mol) (h : rd.MolFromSmiles s = .ret (some m)) :
    log_partition_coefficient rd s = .ok (rd.MolLogP m) := by
  simp [log_partition_coefficient, h, CrippenMolLogP]

/-- C6 witness: the all-pass collaborator reports logP 2 and the operation
returns it. -/
theorem log_partition_coefficient_valid_witness :
    rdGood.MolFromSmiles ("CCO") = ParseOutcome.ret (some ()) ∧
    log_partition_coefficient rdGood ("CCO") = .ok 2 :=
  ⟨rfl, log_partition_coefficient_valid rdGood ("CCO") () rfl⟩

/-- C7: whenever `lipinski_trial` raises an error, `lipinski_pass` raises
that very same error, unmodified. -/
theorem lipinski_pass_propagates_errors {Mol : Type} (rd : Rdkit Mol)
    (s : String) (e : PyError) (h : lipinski_trial rd s = .error e) :
    lipinski_pass rd s = .error e := by
  unfold lipinski_pass
  rw [h]

/-- C7 witness: for the null-parsing collaborator, the trial's generic
exception is propagated verbatim by `lipinski_pass`. -/
theorem lipinski_pass_propagates_errors_witness :
    lipinski_trial rdNone ("x") =
      .error (.exception ("x is not a valid SMILES string")) ∧
    lipinski_pass rdNone ("x") =
      .error (.exception ("x is not a valid SMILES string")) :=
  ⟨rfl, lipinski_pass_propagates_errors rdNone ("x") _ rfl⟩

/-- C8: every operation either fully fails (raises) or fully succeeds; in
particular a successful `lipinski_trial` always carries all four rule
outcomes, never a partially-computed result. -/
theorem operations_all_or_nothing {Mol : Type} (rd : Rdkit Mol) (s : String) :
    ((∃ e, log_partition_coefficient rd s = .error e) ∨
      (∃ q, log_partition_coefficient rd s = .ok q)) ∧
    ((∃ e, lipinski_trial rd s = .error e) ∨
      (∃ p f, lipinski_trial rd s = .ok (p, f) ∧ p.length + f.length = 4)) ∧
    ((∃ e, lipinski_pass rd s = .error e) ∨
      (∃ b, lipinski_pass rd s = .ok b)) := by
  refine ⟨?_, ?_, ?_⟩
  · rcases hq : log_partition_coefficient rd s with e | q
    · exact .inl ⟨e, rfl⟩
    · exact .inr ⟨q, rfl⟩
  · rcases hp : rd.MolFromSmiles s with e | mol
    · exact .inl ⟨e, by simp [lipinski_trial, hp]⟩
    · rcases mol with _ | m
      · exact .inl ⟨.exception (s ++ " is not a valid SMILES string"),
          by simp [lipinski_trial, hp]⟩
      · refine .inr ⟨(lipinski_rules rd m).1, (lipinski_rules rd m).2,
          by simp [lipinski_trial, hp], ?_⟩
        rw [lipinski_rules_eq]
        by_cases h1 : rd.NumHDonors m > 5 <;> by_cases h2 : rd.NumHAcceptors m > 10 <;>
          by_cases h3 : rd.MolWt m ≥ 500 <;> by_cases h4 : rd.MolLogP m ≥ 5 <;>
          simp [h1, h2, h3, h4]
  · rcases hb : lipinski_pass rd s with e | b
    · exact .inl ⟨e, rfl⟩
    · exact .inr ⟨b, rfl⟩

/-- C9: each operation invokes the collaborator's parse exactly once per
call (the instrumented replays count exactly one `MolFromSmiles`
invocation, and their values coincide with the operations'), and each
operation is a pure function of its input and the collaborator: its result
depends on the collaborator only through the parse result for the given
string and the descriptor functions, so no parsed molecule is cached or
shared across calls. -/
theorem single_parse_pure {Mol : Type} (rd rd₂ : Rdkit Mol) (s : String)
    (hparse : rd.MolFromSmiles s = rd₂.MolFromSmiles s)
    (hlogp : rd.MolLogP = rd₂.MolLogP)
    (hdon : rd.NumHDonors = rd₂.NumHDonors)
    (hacc : rd.NumHAcceptors = rd₂.NumHAcceptors)
    (hwt : rd.MolWt = rd₂.MolWt) :
    (log_partition_coefficient_counted rd s).2 = 1 ∧
    (lipinski_trial_counted rd s).2 = 1 ∧
    (lipinski_pass_counted rd s).2 = 1 ∧
    (log_partition_coefficient_counted rd s).1 = log_partition_coefficient rd s ∧
    (lipinski_trial_counted rd s).1 = lipinski_trial rd s ∧
    (lipinski_pass_counted rd s).1 = lipinski_pass rd s ∧
    log_partition_coefficient rd s = log_partition_coefficient rd₂ s ∧
    lipinski_trial rd s = lipinski_trial rd₂ s ∧
    lipinski_pass rd s = lipinski_pass rd₂ s := by
  have hrules : lipinski_rules rd = lipinski_rules rd₂ := by
    funext m
    unfold lipinski_rules
    rw [hlogp, hdon, hacc, hwt]
  have htrial : lipinski_trial rd s = lipinski_trial rd₂ s := by
    unfold lipinski_trial
    rw [hparse, hrules]
  refine ⟨?_, ?_, ?_, ?_, ?_, ?_, ?_, htrial, ?_⟩
  · unfold log_partition_coefficient_counted MolFromSmiles_counted
    rcases rd.MolFromSmiles s with e | mol <;> rfl
  · unfold lipinski_trial_counted MolFromSmiles_counted
    rcases rd.MolFromSmiles s with e | (_ | m) <;> rfl
  · unfold lipinski_pass_counted lipinski_trial_counted MolFromSmiles_counted
    rcases rd.MolFromSmiles s with e | (_ | m)
    · rfl
    · rfl
    · by_cases hf : (lipinski_rules rd m).2.isEmpty <;> simp [hf]
  · unfold log_partition_coefficient_counted MolFromSmiles_counted
      log_partition_coefficient
    rcases rd.MolFromSmiles s with e | mol <;> rfl
  · unfold lipinski_trial_counted MolFromSmiles_counted lipinski_trial
    rcases rd.MolFromSmiles s with e | (_ | m) <;> rfl
  · unfold lipinski_pass_counted lipinski_trial_counted MolFromSmiles_counted
      lipinski_pass lipinski_trial
    rcases rd.MolFromSmiles s with e | (_ | m) <;> rfl
  · unfold log_partition_coefficient
    rw [hparse]
    rcases rd₂.MolFromSmiles s with e | (_ | m)
    · rfl
    · rfl
    · unfold CrippenMolLogP
      rw [hlogp]
  · unfold lipinski_pass
    rw [htrial]

/-- C9 witness: the counts and agreements at a concrete collaborator and
input. -/
theorem single_parse_pure_witness :
    rdGood.MolFromSmiles ("CCO") = rdGood.MolFromSmiles ("CCO") ∧
    (lipinski_trial_counted rdGood ("CCO")).2 = 1 ∧
    lipinski_trial rdGood ("CCO") = lipinski_trial rdGood ("CCO") := by
  have h := single_parse_pure rdGood rdGood ("CCO") rfl rfl rfl rfl rfl
  exact ⟨rfl, h.2.1, h.2.2.2.2.2.2.2.1⟩

/-- C10: two SMILES strings whose parsed molecules have identical values for
the four descriptors produce identical `(passed, failed)` results from
`lipinski_trial`: the outcome depends on the molecule only through the four
descriptor values. -/
theorem trial_depends_only_on_descriptors {Mol : Type} (rd : Rdkit Mol)
    (s₁ s₂ : String) (m₁ m₂ : Mol)
    (h₁ : rd.MolFromSmiles s₁ = .ret (some m₁))
    (h₂ : rd.MolFromSmiles s₂ = .ret (some m₂))
    (hdon : rd.NumHDonors m₁ = rd.NumHDonors m₂)
    (hacc : rd.NumHAcceptors m₁ = rd.NumHAcceptors m₂)
    (hwt : rd.MolWt m₁ = rd.MolWt m₂)
    (hlogp : rd.MolLogP m₁ = rd.MolLogP m₂) :
    lipinski_trial rd s₁ = lipinski_trial rd s₂ := by
  have hr : lipinski_rules rd m₁ = lipinski_rules rd m₂ := by
    unfold lipinski_rules
    rw [hdon, hacc, hwt, hlogp]
  simp [lipinski_trial, h₁, h₂, hr]

/-- C10 witness: two different SMILES strings parsing to two different
molecules with equal descriptors give equal trial results. -/
theorem trial_depends_only_on_descriptors_witness :
    rdPair.MolFromSmiles ("a") = ParseOutcome.ret (some true) ∧
    rdPair.MolFromSmiles ("b") = ParseOutcome.ret (some false) ∧
    lipinski_trial rdPair ("a") = lipinski_trial rdPair ("b") :=
  ⟨rfl, rfl, trial_depends_only_on_descriptors rdPair ("a") ("b") true false
    rfl rfl rfl rfl rfl rfl⟩

/-- C1 counterexample: for a SMILES string the collaborator parses to the
null molecule, `log_partition_coefficient` and `lipinski_trial` raise errors
of two different kinds — the former lets the library's own `MolLogP` error
escape, the latter raises a bare generic exception — so they do not raise
one shared Invalid-Molecule error kind. -/
theorem invalid_smiles_error_kinds_differ :
    log_partition_coefficient rdNone ("invalid_smiles_!!!") =
      .error (.libraryError ("MolLogP")) ∧
    lipinski_trial rdNone ("invalid_smiles_!!!") =
      .error (.exception ("invalid_smiles_!!! is not a valid SMILES string")) ∧
    PyError.sameClass (.libraryError ("MolLogP"))
      (.exception ("invalid_smiles_!!! is not a valid SMILES string")) = false ∧
    PyError.isSmilesError (.libraryError ("MolLogP")) = false ∧
    PyError.isSmilesError
      (.exception ("invalid_smiles_!!! is not a valid SMILES string")) = false :=
  ⟨rfl, rfl, rfl, rfl, rfl⟩

/-- C1 (amended): for every SMILES string the collaborator parses to the
null molecule, the two operations raise errors of two different kinds:
`log_partition_coefficient` propagates the error raised inside the
descriptor library by `Crippen.MolLogP` on the null molecule, while
`lipinski_trial` raises a generic `Exception`; neither raises the module's
`SmilesError`. -/
theorem invalid_smiles_two_error_kinds {Mol : Type} (rd : Rdkit Mol)
    (s : String) (h : rd.MolFromSmiles s = .ret none) :
    log_partition_coefficient rd s = .error (.libraryError ("MolLogP")) ∧
    lipinski_trial rd s = .error (.exception (s ++ " is not a valid SMILES string")) ∧
    PyError.sameClass (.libraryError ("MolLogP"))
      (.exception (s ++ " is not a valid SMILES string")) = false := by
  refine ⟨?_, ?_, rfl⟩
  · simp [log_partition_coefficient, h, CrippenMolLogP]
  · simp [lipinski_trial, h]

/-- C1 witness: the amended statement at the null-parsing collaborator. -/
theorem invalid_smiles_two_error_kinds_witness :
    rdNone.MolFromSmiles ("N1C") = ParseOutcome.ret none ∧
    log_partition_coefficient rdNone ("N1C") = .error (.libraryError ("MolLogP")) ∧
    lipinski_trial rdNone ("N1C") =
      .error (.exception ("N1C is not a valid SMILES string")) := by
  have h := invalid_smiles_two_error_kinds rdNone ("N1C") rfl
  exact ⟨rfl, h.1, h.2.1⟩

/-- C2 (code bug): evaluated at a SMILES string for which the parse call
returns the null molecule without raising, `log_partition_coefficient` does
not signal `SmilesError`; the library's own error from `Crippen.MolLogP`
escapes instead. Only when the parse call itself raises does the function
signal `SmilesError` — so the caller sees a different error type depending
on how parsing failed. The except-branch's own message, `"%s returns a None
molecule"`, shows the null-result case was the intended target of the
handler. -/
theorem null_parse_result_escapes_smiles_error :
    log_partition_coefficient rdNone ("invalid_smiles_???") =
      .error (.libraryError ("MolLogP")) ∧
    PyError.isSmilesError (.libraryError ("MolLogP")) = false ∧
    log_partition_coefficient rdRaises ("invalid_smiles_???") =
      .error (.smilesError ("invalid_smiles_??? returns a None molecule")) :=
  ⟨rfl, rfl, rfl⟩
